import Mathlib

/-!
Verification of the browser-side content-blocking layer in
`js/error-handler.js` (domain classifier, stub registry, console filter,
request interceptor, element interceptor, consent flow).

The JavaScript is shallowly embedded: strings are Lean `String`s, the
JS falsy test `!s` on a string is the emptiness test, `null`/`undefined`
inputs are `Option`/dedicated constructors, and each wrapped browser
primitive is a Lean function parameterised by the original primitive it
wraps, returning an explicit outcome (thrown error / delegated result).
-/

/-- ASCII lower-casing of a string, modelling JS `toLowerCase` on the
ASCII hostnames and phrases this program works with. -/
def lowerStr (s : String) : String := String.mk (s.data.map Char.toLower)

/-- JS `domain.replace(/\./g, '-')`: every dot replaced by a hyphen. -/
def dotToHyphen (s : String) : String :=
  String.mk (s.data.map (fun c => if c == '.' then '-' else c))

/-- `startsWithChars s pat`: `pat` is an initial run of `s`. -/
def startsWithChars : List Char → List Char → Bool
  | _, [] => true
  | [], _ :: _ => false
  | a :: as, b :: bs => a == b && startsWithChars as bs

/-- `containsChars s pat`: `pat` occurs contiguously somewhere in `s`. -/
def containsChars : List Char → List Char → Bool
  | [], pat => startsWithChars [] pat
  | a :: rest, pat => startsWithChars (a :: rest) pat || containsChars rest pat

/-- JS `s.includes(pat)`: substring containment. -/
def strIncludes (s pat : String) : Bool := containsChars s.data pat.data

/-- `trackingProtection.blockedDomains`, in source order. -/
def blockedDomains : List String :=
  [ "googletagmanager.com", "google-analytics.com", "analytics.google.com",
    "analytics", "segment.com", "segment.io", "mixpanel.com",
    "facebook.net", "facebook.com", "twitter.com", "ads-twitter.com",
    "linkedin.com", "tiktok.com", "snap.com", "pinterest.com",
    "doubleclick.net", "adsystem.com", "adnxs.com", "advertising",
    "adroll.com", "criteo.com", "outbrain.com",
    "firstpromoter.com", "redditstatic.com", "hsforms.com", "hs-scripts.com",
    "hs-analytics", "hubspot.com", "marketo.com", "salesforce.com",
    "hotjar.com", "mouseflow.com", "clarity.ms", "luckyorange.com",
    "crazyegg.com",
    "tracking", "telemetry", "metrics", "pixel", "beacon", "collect" ]

/-- `trackingProtection.isDomainBlocked(url)`: `none` models a JS
`null`/`undefined` argument; an empty string is falsy in JS, so
`if (!url) return false` also catches it. -/
def isDomainBlocked : Option String → Bool
  | none => false
  | some url =>
      if url = "" then false
      else
        blockedDomains.any (fun domain =>
          strIncludes (lowerStr url) domain ||
          strIncludes (lowerStr url) (dotToHyphen domain))

/-- Spec-level predicate: `pat` occurs in `s` as a case-insensitive
substring (both sides lower-cased before the containment test). -/
def ciContains (s pat : String) : Bool := strIncludes (lowerStr s) (lowerStr pat)

/-- Spec-level classifier, following the spec's words: a string is blocked
exactly when it contains some BlockList entry, or that entry's
dot-to-hyphen variant, as a case-insensitive substring. -/
def specCaseInsensitiveBlocked (url : String) : Bool :=
  blockedDomains.any (fun d => ciContains url d || ciContains url (dotToHyphen d))

theorem list_any_congr {l : List String} {f g : String → Bool}
    (h : ∀ d ∈ l, f d = g d) : l.any f = l.any g := by
  induction l with
  | nil => rfl
  | cons a as ih =>
      rw [List.any_cons, List.any_cons, h a (List.mem_cons_self a as),
        ih (fun d hd => h d (List.mem_cons_of_mem a hd))]

theorem blockedDomains_lower :
    ∀ d ∈ blockedDomains,
      lowerStr d = d ∧ lowerStr (dotToHyphen d) = dotToHyphen d := by decide

theorem specCaseInsensitiveBlocked_empty :
    specCaseInsensitiveBlocked "" = false := by decide

/-- C1: the domain classifier is a total boolean function on
string-or-null input: a string is classified as blocked exactly when it
contains some BlockList entry (or that entry's dot-to-hyphen variant) as
a case-insensitive substring, and null and empty inputs classify as not
blocked. -/
theorem C1_domain_classifier :
    (∀ url : String, isDomainBlocked (some url) = specCaseInsensitiveBlocked url)
    ∧ isDomainBlocked none = false
    ∧ isDomainBlocked (some "") = false := by
  refine ⟨fun url => ?_, rfl, by decide⟩
  by_cases hurl : url = ""
  · subst hurl; decide
  · show (if url = "" then false else _) = _
    rw [if_neg hurl]
    refine list_any_congr (fun d hd => ?_)
    obtain ⟨h1, h2⟩ := blockedDomains_lower d hd
    simp only [ciContains, h1, h2]

/-- Outcome of a call into a wrapped callback-style (XHR) step: either a
synchronously thrown error, or the original step's result. -/
inductive CallResult (α : Type) where
  | threw (msg : String)
  | ok (r : α)
deriving DecidableEq

/-- The wrapped `xhr.open`. The original open behaviour is a parameter;
`rest` stands for the remaining JS `arguments` (async, user, password),
passed through unchanged. -/
def wrappedOpen {α β : Type} (originalOpen : String → String → β → α)
    (method url : String) (rest : β) : CallResult α :=
  if isDomainBlocked (some url) then CallResult.threw "Request blocked"
  else CallResult.ok (originalOpen method url rest)

/-- An XHR `send` payload: JS `null`/`undefined` (no body), a string
body, or any non-string body (Blob, FormData, ...). -/
inductive XhrData (β : Type) where
  | nullData
  | strData (s : String)
  | otherData (b : β)
deriving DecidableEq

/-- JS truthiness of a `send` payload (`data && ...`): null/undefined and
the empty string are falsy, everything else here is truthy. -/
def dataTruthy {β : Type} : XhrData β → Bool
  | XhrData.nullData => false
  | XhrData.strData s => !(s = "")
  | XhrData.otherData _ => true

/-- JS `typeof data === 'string'`. -/
def dataIsString {β : Type} : XhrData β → Bool
  | XhrData.strData _ => true
  | _ => false

/-- The string carried by a string payload (unused on other payloads). -/
def dataStr {β : Type} : XhrData β → String
  | XhrData.strData s => s
  | _ => ""

/-- The wrapped `xhr.send`. -/
def wrappedSend {α β : Type} (originalSend : XhrData β → α)
    (data : XhrData β) : CallResult α :=
  if dataTruthy data && dataIsString data && isDomainBlocked (some (dataStr data)) then
    CallResult.threw "Request blocked"
  else CallResult.ok (originalSend data)

/-- A `fetch` resource argument: a `Request` instance (with a `url`
field) or a bare string URL. -/
inductive FetchResource where
  | request (url : String)
  | str (s : String)
deriving DecidableEq

/-- `resource instanceof Request ? resource.url : resource`. -/
def effectiveUrl : FetchResource → String
  | FetchResource.request u => u
  | FetchResource.str s => s

/-- Outcome of a call into the wrapped promise-style request function:
an already-rejected promise carrying an error message, or the original
transport's return value. -/
inductive FetchOutcome (α : Type) where
  | rejected (msg : String)
  | delegated (r : α)
deriving DecidableEq

/-- The wrapped `window.fetch`. The underlying transport is a parameter;
`init` is the second fetch argument, passed through unchanged. -/
def wrappedFetch {α β : Type} (originalFetch : FetchResource → β → α)
    (resource : FetchResource) (init : β) : FetchOutcome α :=
  if isDomainBlocked (some (effectiveUrl resource)) then
    FetchOutcome.rejected "Request blocked"
  else FetchOutcome.delegated (originalFetch resource init)

/-- C2: a call through the wrapped promise-style request function whose
effective URL (the `url` field of a request descriptor, or the bare
string itself) is classified as blocked returns an already-rejected
outcome with message "Request blocked", and the result is the same for
every underlying transport, so the transport is never consulted; a call
whose effective URL is not blocked delegates to the original transport
with both arguments unchanged and returns its result. -/
theorem C2_fetch_wrapper {α β : Type} (originalFetch : FetchResource → β → α)
    (resource : FetchResource) (init : β) :
    (isDomainBlocked (some (effectiveUrl resource)) = true →
      wrappedFetch originalFetch resource init = FetchOutcome.rejected "Request blocked")
    ∧ (isDomainBlocked (some (effectiveUrl resource)) = false →
      wrappedFetch originalFetch resource init =
        FetchOutcome.delegated (originalFetch resource init)) := by
  constructor
  · intro h; simp [wrappedFetch, h]
  · intro h; simp [wrappedFetch, h]

theorem C2_fetch_wrapper_witness :
    wrappedFetch (fun (_ : FetchResource) (_ : Unit) => (0 : Nat))
        (FetchResource.str "https://googletagmanager.com/gtm.js") ()
      = FetchOutcome.rejected "Request blocked"
    ∧ wrappedFetch (fun (_ : FetchResource) (_ : Unit) => (0 : Nat))
        (FetchResource.str "https://example.com/data.json") ()
      = FetchOutcome.delegated 0 :=
  ⟨(C2_fetch_wrapper (fun _ _ => 0)
      (FetchResource.str "https://googletagmanager.com/gtm.js") ()).1 (by decide),
   (C2_fetch_wrapper (fun _ _ => 0)
      (FetchResource.str "https://example.com/data.json") ()).2 (by decide)⟩

/-- C3: the wrapped `open` step throws, synchronously, exactly when the
target URL is classified as blocked, and then with message
"Request blocked"; on a non-blocked URL it delegates to the original
open behaviour with all arguments unchanged and throws nothing. -/
theorem C3_open_wrapper {α β : Type} (originalOpen : String → String → β → α)
    (method url : String) (rest : β) :
    ((∃ m, wrappedOpen originalOpen method url rest = CallResult.threw m) ↔
      isDomainBlocked (some url) = true)
    ∧ (isDomainBlocked (some url) = true →
      wrappedOpen originalOpen method url rest = CallResult.threw "Request blocked")
    ∧ (isDomainBlocked (some url) = false →
      wrappedOpen originalOpen method url rest =
        CallResult.ok (originalOpen method url rest)) := by
  refine ⟨⟨fun ⟨m, hm⟩ => ?_, fun h => ⟨"Request blocked", by simp [wrappedOpen, h]⟩⟩,
    fun h => by simp [wrappedOpen, h], fun h => by simp [wrappedOpen, h]⟩
  by_cases h : isDomainBlocked (some url) = true
  · exact h
  · simp [wrappedOpen, h] at hm

theorem C3_open_wrapper_witness :
    wrappedOpen (fun (m u : String) (_ : Unit) => m ++ u)
        "GET" "https://www.google-analytics.com/collect" ()
      = CallResult.threw "Request blocked"
    ∧ wrappedOpen (fun (m u : String) (_ : Unit) => m ++ u)
        "GET" "https://example.com/app.js" ()
      = CallResult.ok "GEThttps://example.com/app.js" :=
  ⟨(C3_open_wrapper (fun m u _ => m ++ u)
      "GET" "https://www.google-analytics.com/collect" ()).2.1 (by decide),
   (C3_open_wrapper (fun m u _ => m ++ u)
      "GET" "https://example.com/app.js" ()).2.2 (by decide)⟩

/-- C4: the wrapped `send` step throws "Request blocked" before any
transmission when the payload is a string classified as blocked; any
non-string payload, and any string payload not classified as blocked,
delegates to the original send behaviour unchanged. -/
theorem C4_send_wrapper {α β : Type} (originalSend : XhrData β → α)
    (data : XhrData β) :
    (∀ s, data = XhrData.strData s → isDomainBlocked (some s) = true →
      wrappedSend originalSend data = CallResult.threw "Request blocked")
    ∧ (dataIsString data = false →
      wrappedSend originalSend data = CallResult.ok (originalSend data))
    ∧ (∀ s, data = XhrData.strData s → isDomainBlocked (some s) = false →
      wrappedSend originalSend data = CallResult.ok (originalSend data)) := by
  refine ⟨fun s hs hb => ?_, fun h => ?_, fun s hs hb => ?_⟩
  · subst hs
    have hne : s ≠ "" := fun he => by subst he; exact absurd hb (by decide)
    simp [wrappedSend, dataTruthy, dataIsString, dataStr, hb, hne]
  · cases data with
    | nullData => simp [wrappedSend, dataTruthy]
    | strData s => simp [dataIsString] at h
    | otherData b => simp [wrappedSend, dataTruthy, dataIsString]
  · subst hs
    simp [wrappedSend, dataTruthy, dataIsString, dataStr, hb]

theorem C4_send_wrapper_witness :
    wrappedSend (fun (_ : XhrData Unit) => (7 : Nat))
        (XhrData.strData "https://doubleclick.net/ad")
      = CallResult.threw "Request blocked"
    ∧ wrappedSend (fun (_ : XhrData Unit) => (7 : Nat))
        (XhrData.strData "plain body")
      = CallResult.ok 7
    ∧ wrappedSend (fun (_ : XhrData Unit) => (7 : Nat)) XhrData.nullData
      = CallResult.ok 7 :=
  ⟨(C4_send_wrapper (fun _ => 7) (XhrData.strData "https://doubleclick.net/ad")).1
      "https://doubleclick.net/ad" rfl (by decide),
   (C4_send_wrapper (fun _ => 7) (XhrData.strData "plain body")).2.2
      "plain body" rfl (by decide),
   (C4_send_wrapper (fun _ => 7) (XhrData.nullData : XhrData Unit)).2.1 (by decide)⟩

/-- A script element's attribute store; `setAttribute` adds the newest
binding at the front and `getAttribute` reads the newest binding. -/
abbrev Attrs := List (String × String)

/-- DOM `getAttribute`: `none` models JS `null` for an unset attribute. -/
def getAttribute (a : Attrs) (name : String) : Option String := a.lookup name

/-- The original (unwrapped) `setAttribute` captured by the wrapper. -/
def originalSetAttribute (a : Attrs) (name value : String) : Attrs :=
  (name, value) :: a

/-- The wrapped `element.setAttribute` installed on script elements: a
truthy string value under `src`/`data-src` that classifies as blocked is
silently dropped, everything else delegates. -/
def setAttributeW (a : Attrs) (name value : String) : Attrs :=
  if ¬value = "" ∧ (name = "src" ∨ name = "data-src") ∧
      isDomainBlocked (some value) = true then a
  else originalSetAttribute a name value

/-- The redefined `src` property setter on script elements: forwards to
the wrapped `setAttribute` only when the value is truthy and not
blocked; otherwise it does nothing. -/
def setSrc (a : Attrs) (value : String) : Attrs :=
  if ¬value = "" ∧ isDomainBlocked (some value) = false then
    setAttributeW a "src" value
  else a

/-- The redefined `src` property getter: reads back the attribute. -/
def getSrc (a : Attrs) : Option String := getAttribute a "src"

/-- The C5 claim fails at the empty string: `""` is not classified as
blocked, yet assigning it to the `src` property leaves the attribute
unset, because the setter's truthiness guard (`if (value && ...)`) drops
every falsy value before the classifier is consulted. -/
theorem C5_empty_src_counterexample :
    isDomainBlocked (some "") = false ∧ getSrc (setSrc [] "") = none := by decide

/-- C5 (amended): on a wrapped script element, assigning a blocked value
to the `src` property leaves the element unchanged (no attribute
written, no error); assigning a non-blocked, non-empty value makes the
`src` attribute equal that value; setting the `src` or `data-src`
attribute directly to a blocked value is silently dropped; and any other
attribute name, or any non-blocked value, passes through to the original
`setAttribute` unchanged. (The original claim, with "non-blocked value"
in place of "non-blocked, non-empty value", fails at the empty string:
the property setter drops every falsy value, blocked or not.) -/
theorem C5_script_src_amended :
    (∀ (a : Attrs) (v : String), isDomainBlocked (some v) = true → setSrc a v = a)
    ∧ (∀ (a : Attrs) (v : String), v ≠ "" → isDomainBlocked (some v) = false →
        getSrc (setSrc a v) = some v)
    ∧ (∀ (a : Attrs) (v : String), isDomainBlocked (some v) = true →
        setAttributeW a "src" v = a ∧ setAttributeW a "data-src" v = a)
    ∧ (∀ (a : Attrs) (name v : String), name ≠ "src" → name ≠ "data-src" →
        setAttributeW a name v = originalSetAttribute a name v)
    ∧ (∀ (a : Attrs) (name v : String), isDomainBlocked (some v) = false →
        setAttributeW a name v = originalSetAttribute a name v) := by
  refine ⟨fun a v hb => ?_, fun a v hv hb => ?_, fun a v hb => ?_,
    fun a name v h1 h2 => ?_, fun a name v hb => ?_⟩
  · simp [setSrc, hb]
  · simp [setSrc, setAttributeW, originalSetAttribute, hv, hb, getSrc, getAttribute]
  · have hne : v ≠ "" := fun he => by subst he; exact absurd hb (by decide)
    constructor <;> simp [setAttributeW, hne, hb]
  · simp [setAttributeW, h1, h2]
  · simp [setAttributeW, hb]

theorem C5_script_src_witness :
    setSrc [] "https://connect.facebook.net/fbevents.js" = []
    ∧ getSrc (setSrc [] "https://example.com/app.js") = some "https://example.com/app.js"
    ∧ setAttributeW [] "src" "https://hotjar.com/h.js" = []
    ∧ setAttributeW [] "id" "main" = [("id", "main")] :=
  ⟨C5_script_src_amended.1 [] "https://connect.facebook.net/fbevents.js" (by decide),
   C5_script_src_amended.2.1 [] "https://example.com/app.js" (by decide) (by decide),
   (C5_script_src_amended.2.2.1 [] "https://hotjar.com/h.js" (by decide)).1,
   C5_script_src_amended.2.2.2.1 [] "id" "main" (by decide) (by decide)⟩

/-- A JS value held by a global, with enough structure to decide JS
truthiness; functions, objects and arrays carry a tag naming which
stand-in they are. -/
inductive JSVal where
  | undef
  | boolv (b : Bool)
  | numv (n : Int)
  | strv (s : String)
  | func (tag : String)
  | obj (tag : String)
  | arr (tag : String)
deriving DecidableEq

/-- JS truthiness of a global's value (`!window[key]` negates this).
Functions, objects and arrays — even empty ones — are truthy. -/
def truthy : JSVal → Bool
  | JSVal.undef => false
  | JSVal.boolv b => b
  | JSVal.numv n => !(n = 0)
  | JSVal.strv s => !(s = "")
  | JSVal.func _ => true
  | JSVal.obj _ => true
  | JSVal.arr _ => true

/-- The global object as a property list; an absent key reads as
`undefined`. -/
abbrev Window := List (String × JSVal)

/-- `window[key]`. -/
def windowGet (w : Window) (key : String) : JSVal :=
  (w.lookup key).getD JSVal.undef

/-- A property write on the global object (`defineProperty` and plain
assignment both store the value; property attributes are not modelled). -/
def windowSet (w : Window) (key : String) (v : JSVal) : Window :=
  (key, v) :: w

/-- `trackingProtection.trackingStubs`, in source order. -/
def trackingStubs : List (String × JSVal) :=
  [ ("gtag", JSVal.func "gtag"), ("ga", JSVal.func "ga"),
    ("google_tag_manager", JSVal.obj "google_tag_manager"),
    ("GoogleAnalyticsObject", JSVal.boolv true), ("__ga__", JSVal.func "__ga__"),
    ("fbq", JSVal.func "fbq"), ("fb", JSVal.func "fb"),
    ("fbevents", JSVal.func "fbevents"),
    ("twq", JSVal.func "twq"), ("ttq", JSVal.func "ttq"),
    ("lintrk", JSVal.func "lintrk"), ("rdt", JSVal.func "rdt"),
    ("pintrk", JSVal.func "pintrk"), ("snaptr", JSVal.func "snaptr"),
    ("hsq", JSVal.func "hsq"), ("hbspt", JSVal.obj "hbspt"),
    ("analytics", JSVal.func "analytics"), ("_satellite", JSVal.obj "_satellite"),
    ("dataLayer", JSVal.arr "dataLayer"),
    ("hj", JSVal.func "hj"), ("clarity", JSVal.func "clarity"),
    ("trackEvent", JSVal.func "trackEvent"),
    ("trackPageview", JSVal.func "trackPageview"),
    ("trackCustom", JSVal.func "trackCustom") ]

/-- One iteration of the `setupStubs` loop: `if (!window[key])`, install
the stand-in, else leave the global alone. -/
def installStub (w : Window) (kv : String × JSVal) : Window :=
  if truthy (windowGet w kv.fst) then w else windowSet w kv.fst kv.snd

/-- `trackingProtection.setupStubs()`. -/
def setupStubs (w : Window) : Window := trackingStubs.foldl installStub w

/-- Whether the global object has a definition under `key` (as opposed
to the key merely reading as a falsy value). -/
def windowDefined (w : Window) (key : String) : Bool := (w.lookup key).isSome

theorem windowGet_installStub_of_truthy (w : Window) (kv : String × JSVal)
    (k : String) (h : truthy (windowGet w k) = true) :
    windowGet (installStub w kv) k = windowGet w k := by
  cases ht : truthy (windowGet w kv.fst) with
  | true => simp [installStub, ht]
  | false =>
      simp only [installStub, ht, Bool.false_eq_true, if_false]
      by_cases hk : k = kv.fst
      · subst hk; rw [h] at ht; cases ht
      · have hb : (k == kv.fst) = false := by simp [hk]
        simp [windowGet, windowSet, List.lookup, hb]

theorem windowGet_foldl_of_truthy (l : List (String × JSVal)) (w : Window)
    (k : String) (h : truthy (windowGet w k) = true) :
    windowGet (l.foldl installStub w) k = windowGet w k := by
  induction l generalizing w with
  | nil => rfl
  | cons kv rest ih =>
      rw [List.foldl_cons,
        ih (installStub w kv)
          (by rw [windowGet_installStub_of_truthy w kv k h]; exact h),
        windowGet_installStub_of_truthy w kv k h]

theorem truthy_installStub_self (w : Window) (kv : String × JSVal)
    (hv : truthy kv.snd = true) :
    truthy (windowGet (installStub w kv) kv.fst) = true := by
  cases ht : truthy (windowGet w kv.fst) with
  | true => simp [installStub, ht]
  | false =>
      simp only [installStub, ht, Bool.false_eq_true, if_false]
      simpa [windowGet, windowSet, List.lookup] using hv

theorem truthy_foldl_mem (l : List (String × JSVal)) (w : Window)
    (hl : ∀ kv ∈ l, truthy kv.snd = true) :
    ∀ kv ∈ l, truthy (windowGet (l.foldl installStub w) kv.fst) = true := by
  induction l generalizing w with
  | nil => intro kv hkv; cases hkv
  | cons kv0 rest ih =>
      intro kv hkv
      rw [List.foldl_cons]
      rcases List.mem_cons.mp hkv with h | h
      · subst h
        have ht0 := truthy_installStub_self w kv
          (hl kv (List.mem_cons_self kv rest))
        rw [windowGet_foldl_of_truthy rest (installStub w kv) kv.fst ht0]
        exact ht0
      · exact ih (installStub w kv0)
          (fun x hx => hl x (List.mem_cons_of_mem kv0 hx)) kv h

theorem foldl_installStub_id (l : List (String × JSVal)) (w : Window)
    (h : ∀ kv ∈ l, truthy (windowGet w kv.fst) = true) :
    l.foldl installStub w = w := by
  induction l with
  | nil => rfl
  | cons kv0 rest ih =>
      rw [List.foldl_cons]
      have h0 : installStub w kv0 = w := by
        simp [installStub, h kv0 (List.mem_cons_self kv0 rest)]
      rw [h0]
      exact ih (fun x hx => h x (List.mem_cons_of_mem kv0 hx))

theorem trackingStubs_truthy : ∀ kv ∈ trackingStubs, truthy kv.snd = true := by
  decide

/-- The C6 claim fails on falsy pre-existing globals: `window.gtag`
pre-set to `false` is a defined global, but `setupStubs` tests
`!window[key]` (truthiness, not definedness), so it overwrites the
`false` with the stand-in function. -/
theorem C6_defined_global_overwritten :
    windowDefined [("gtag", JSVal.boolv false)] "gtag" = true
    ∧ windowGet [("gtag", JSVal.boolv false)] "gtag" = JSVal.boolv false
    ∧ windowGet (setupStubs [("gtag", JSVal.boolv false)]) "gtag" = JSVal.func "gtag"
    ∧ windowGet (setupStubs [("gtag", JSVal.boolv false)]) "gtag" ≠ JSVal.boolv false := by
  decide

/-- C6 (amended): the stub installation never overwrites a pre-existing
global whose value is truthy: for every global name holding a truthy
value before `setupStubs` runs, its value afterwards is unchanged.
(The original claim — that every *defined* global survives, whatever its
value — fails: the guard is `!window[key]`, so a defined global holding
a falsy value such as `false`, `0` or `""` is overwritten by the stub.) -/
theorem C6_no_truthy_overwrite_amended :
    ∀ (w : Window) (k : String), truthy (windowGet w k) = true →
      windowGet (setupStubs w) k = windowGet w k := by
  intro w k h
  exact windowGet_foldl_of_truthy trackingStubs w k h

theorem C6_no_truthy_overwrite_witness :
    truthy (windowGet [("gtag", JSVal.numv 5)] "gtag") = true
    ∧ windowGet (setupStubs [("gtag", JSVal.numv 5)]) "gtag"
        = windowGet [("gtag", JSVal.numv 5)] "gtag" :=
  ⟨by decide, C6_no_truthy_overwrite_amended [("gtag", JSVal.numv 5)] "gtag" (by decide)⟩

/-- C7: stub installation is idempotent: running `setupStubs` a second
time from any starting global state changes nothing — after the first
run every StubTable key holds a truthy value (its stand-in, or the
truthy pre-existing value that kept it from being stubbed), so the
second run's `!window[key]` guard skips every key, and in this
exception-free model the second call cannot throw. -/
theorem C7_setupStubs_idempotent :
    ∀ w : Window, setupStubs (setupStubs w) = setupStubs w := by
  intro w
  unfold setupStubs
  exact foldl_installStub_id trackingStubs (trackingStubs.foldl installStub w)
    (truthy_foldl_mem trackingStubs w trackingStubs_truthy)

/-- `protectionConfig`, frozen at startup. -/
structure ProtectionConfig where
  enabled : Bool
  debugMode : Bool
  blockConsoleErrors : Bool
  blockTracking : Bool
  blockAds : Bool
  allowEssentialCookies : Bool
deriving DecidableEq

def protectionConfig : ProtectionConfig :=
  ProtectionConfig.mk true false true true true true

/-- `consoleManager.shouldBlock(args)`: arguments (already stringified)
joined with a space, lower-cased, and tested against the fixed noise
phrases, in source order. -/
def shouldBlock (args : List String) : Bool :=
  strIncludes (lowerStr (String.intercalate " " args)) "err_blocked_by_client" ||
  strIncludes (lowerStr (String.intercalate " " args)) "failed to load" ||
  strIncludes (lowerStr (String.intercalate " " args)) "gtm" ||
  strIncludes (lowerStr (String.intercalate " " args)) "analytics" ||
  strIncludes (lowerStr (String.intercalate " " args)) "tracking" ||
  strIncludes (lowerStr (String.intercalate " " args)) "pixel" ||
  strIncludes (lowerStr (String.intercalate " " args)) "error loading script"

/-- The fixed noise phrases, as a list, for the spec-level statement. -/
def noisePhrases : List String :=
  [ "err_blocked_by_client", "failed to load", "gtm", "analytics",
    "tracking", "pixel", "error loading script" ]

/-- Observable effect of one call into a console sink: the call is
dropped, or forwarded to a named original sink with its arguments. -/
inductive SinkAction where
  | dropped
  | forwarded (sinkName : String) (args : List String)
deriving DecidableEq

/-- The four console sinks the script touches or retains. -/
structure ConsoleState where
  logSink : List String → SinkAction
  errorSink : List String → SinkAction
  warnSink : List String → SinkAction
  debugSink : List String → SinkAction

/-- The pristine console: every sink forwards to itself. -/
def originalConsole : ConsoleState :=
  ConsoleState.mk
    (fun args => SinkAction.forwarded "log" args)
    (fun args => SinkAction.forwarded "error" args)
    (fun args => SinkAction.forwarded "warn" args)
    (fun args => SinkAction.forwarded "debug" args)

/-- `consoleManager.init()`: when `blockConsoleErrors` is set, replace
`console.error`/`console.warn` with filters that forward to the retained
originals only when `shouldBlock` is false; replace `console.debug` with
a no-op unless `debugMode` is set. `console.log` is never reassigned. -/
def consoleManagerInit (c : ConsoleState) : ConsoleState :=
  let c1 :=
    if protectionConfig.blockConsoleErrors then
      ConsoleState.mk c.logSink
        (fun args => if shouldBlock args then SinkAction.dropped else c.errorSink args)
        (fun args => if shouldBlock args then SinkAction.dropped else c.warnSink args)
        c.debugSink
    else c
  if protectionConfig.debugMode then
    ConsoleState.mk c1.logSink c1.errorSink c1.warnSink c.debugSink
  else
    ConsoleState.mk c1.logSink c1.errorSink c1.warnSink (fun _ => SinkAction.dropped)

theorem shouldBlock_eq_any (args : List String) :
    shouldBlock args =
      noisePhrases.any
        (fun p => strIncludes (lowerStr (String.intercalate " " args)) p) := by
  simp [shouldBlock, noisePhrases, List.any_cons, List.any_nil, Bool.or_assoc]

/-- C8: after installation, a call into the wrapped error or warning
sink whose space-joined, lower-cased arguments contain one of the fixed
noise phrases is dropped (nothing forwarded, no error); any other call
is forwarded to the original sink with the arguments unchanged. -/
theorem C8_console_filter (c : ConsoleState) (args : List String) :
    (noisePhrases.any
        (fun p => strIncludes (lowerStr (String.intercalate " " args)) p) = true →
      (consoleManagerInit c).errorSink args = SinkAction.dropped
      ∧ (consoleManagerInit c).warnSink args = SinkAction.dropped)
    ∧ (noisePhrases.any
        (fun p => strIncludes (lowerStr (String.intercalate " " args)) p) = false →
      (consoleManagerInit c).errorSink args = c.errorSink args
      ∧ (consoleManagerInit c).warnSink args = c.warnSink args) := by
  constructor
  · intro h
    have hb : shouldBlock args = true := by rw [shouldBlock_eq_any]; exact h
    constructor <;> simp [consoleManagerInit, protectionConfig, hb]
  · intro h
    have hb : shouldBlock args = false := by rw [shouldBlock_eq_any]; exact h
    constructor <;> simp [consoleManagerInit, protectionConfig, hb]

theorem C8_console_filter_witness :
    (consoleManagerInit originalConsole).errorSink
        ["Failed to load resource: net::ERR_BLOCKED_BY_CLIENT"]
      = SinkAction.dropped
    ∧ (consoleManagerInit originalConsole).warnSink ["layout shift detected"]
      = SinkAction.forwarded "warn" ["layout shift detected"] :=
  ⟨((C8_console_filter originalConsole
      ["Failed to load resource: net::ERR_BLOCKED_BY_CLIENT"]).1 (by decide)).1,
   ((C8_console_filter originalConsole ["layout shift detected"]).2 (by decide)).2⟩

/-- C10 (implicit): `console.log` is never wrapped or filtered — after
installation every call to the log sink behaves exactly as before
installation, even on arguments that the error/warn filter would
suppress (shown on a concrete noisy argument list, which the wrapped
error sink drops while the log sink still forwards unchanged). -/
theorem C10_log_not_wrapped :
    (∀ (c : ConsoleState) (args : List String),
      (consoleManagerInit c).logSink args = c.logSink args)
    ∧ shouldBlock ["Resource failed to load"] = true
    ∧ (consoleManagerInit originalConsole).logSink ["Resource failed to load"]
        = SinkAction.forwarded "log" ["Resource failed to load"]
    ∧ (consoleManagerInit originalConsole).errorSink ["Resource failed to load"]
        = SinkAction.dropped := by
  refine ⟨fun c args => ?_, by decide, by decide, by decide⟩
  simp [consoleManagerInit, protectionConfig]

/-- Page-level state for the consent flow: the persisted
`localStorage['cookieConsent']` value (`none` models an absent key),
whether the `consent-banner` element exists in the document, and whether
it is visible (`style.display` not `none`). -/
structure PageState where
  consentStorage : Option String
  bannerExists : Bool
  bannerVisible : Bool
deriving DecidableEq

/-- JS truthiness of `localStorage.getItem('cookieConsent')`: `null`
(absent key) and the empty string are falsy. -/
def consentTruthy : Option String → Bool
  | none => false
  | some v => !(v = "")

/-- `initConsentManagement()`: creates the banner element (with its
buttons and styles) and appends it to the document. -/
def initConsentManagement (s : PageState) : PageState :=
  PageState.mk s.consentStorage true true

/-- The `DOMContentLoaded` listener: create the banner only when no
consent value is persisted. -/
def onDOMContentLoaded (s : PageState) : PageState :=
  if consentTruthy s.consentStorage then s else initConsentManagement s

/-- `window.acceptEssentialOnly()`: persist `"essential"`, then hide the
banner by id lookup; when the banner element is absent the lookup yields
`null` and the hide step throws, after the value was already persisted
(`Except.error` carries the state at the throw). -/
def acceptEssentialOnly (s : PageState) : Except PageState PageState :=
  if s.bannerExists then
    Except.ok (PageState.mk (some "essential") s.bannerExists false)
  else
    Except.error (PageState.mk (some "essential") s.bannerExists s.bannerVisible)

/-- A fresh page load carrying over only the persisted storage. -/
def freshLoad (storage : Option String) : PageState :=
  PageState.mk storage false false

/-- C9: consent flow — with no persisted value the banner is created on
the DOM-ready event; invoking `acceptEssentialOnly` then persists
`"essential"` and hides the banner; and on a subsequent load with that
persisted value the banner is not created. -/
theorem C9_consent_flow :
    (onDOMContentLoaded (freshLoad none)).bannerExists = true
    ∧ acceptEssentialOnly (onDOMContentLoaded (freshLoad none))
        = Except.ok (PageState.mk (some "essential") true false)
    ∧ (onDOMContentLoaded (freshLoad (some "essential"))).bannerExists = false :=
  ⟨rfl, rfl, rfl⟩
